import Mathlib

/-!
Verification of the jimbo-cam daemon (src/jimbo-cam.py), a loop that captures
a JPEG still from a Raspberry Pi camera and uploads it to Prusa Connect.

The Python source is shallowly embedded: pure control flow becomes Lean
functions, Python exceptions become `Except` (an `.error` value models an
exception propagating to the caller), the camera and filesystem become
explicit state records threaded through the functions, and nondeterministic
outcomes of the external world (camera hardware, network) become explicit
behaviour parameters.  Machine floats are idealised as exact rationals (the
decimal value denoted by a literal), with infinities and NaN as separate
tags as produced by Python's `float()` builtin.
-/

namespace JimboCam

/-! ## Python string primitives used by the source -/

/-- Characters stripped by Python's `str.strip()` (ASCII whitespace). -/
def isPySpace (c : Char) : Bool :=
  c = ' ' || c = '\t' || c = '\n' || c = '\r' || c = '\x0b' || c = '\x0c'

/-- Python `str.strip()`: remove leading and trailing whitespace. -/
def pyStrip (s : String) : String :=
  String.mk (((s.toList.dropWhile isPySpace).reverse.dropWhile isPySpace).reverse)

/-- ASCII lower-casing of a character, as `str.lower()` does on ASCII input. -/
def asciiLowerChar (c : Char) : Char :=
  if 'A' ≤ c && c ≤ 'Z' then Char.ofNat (c.toNat + 32) else c

/-- Python `str.lower()` restricted to ASCII (all mode strings are ASCII). -/
def asciiLower (s : String) : String :=
  String.mk (s.toList.map asciiLowerChar)

/-! ## Python `float()` parsing

`float(pos)` in `configure_autofocus` uses the builtin parser.  It accepts an
optionally signed decimal literal (`digits [. digits] [exponent]`), or the
case-insensitive words `inf`, `infinity`, `nan`, after stripping surrounding
whitespace; anything else raises `ValueError`.  Finite values are modelled
as exact rationals (no IEEE rounding or overflow, no underscore separators;
the sign of a NaN is not tracked). -/

/-- The value of a Python float.  A finite value is kept in exact decimal
scientific form: `finite m e` denotes the real number `m * 10 ^ e` (see
`PyFloat.toRat`); so `float("1.2")` is `finite 12 (-1)`. -/
inductive PyFloat where
  | finite (mantissa : Int) (exp10 : Int)
  | inf (neg : Bool)
  | nan
deriving DecidableEq, Repr

/-- The rational number a `PyFloat` denotes (`none` for infinities and NaN). -/
def PyFloat.toRat : PyFloat → Option ℚ
  | .finite m e => some ((m : ℚ) * (10 : ℚ) ^ e)
  | _ => none

/-- Numeric value of a digit string (most significant first). -/
def digitsVal (ds : List Char) : Nat :=
  ds.foldl (fun a c => a * 10 + (c.toNat - '0'.toNat)) 0

/-- Parse an unsigned mantissa `digits [. digits]`; at least one digit must be
present.  Returns the digits' value, the number of fractional digits, and the
unconsumed characters. -/
def parseMantissa (cs : List Char) : Option (Nat × Nat × List Char) :=
  let ip := cs.takeWhile Char.isDigit
  let rest := cs.drop ip.length
  match rest with
  | '.' :: r2 =>
    let fp := r2.takeWhile Char.isDigit
    if ip.isEmpty && fp.isEmpty then none
    else some (digitsVal (ip ++ fp), fp.length, r2.drop fp.length)
  | _ => if ip.isEmpty then none else some (digitsVal ip, 0, rest)

/-- Parse an exponent part: `e` or `E`, an optional sign, then digits; must
consume its input to the end. -/
def parseExpPart (cs : List Char) : Option Int :=
  match cs with
  | c :: r =>
    if c = 'e' || c = 'E' then
      let sr : Int × List Char :=
        match r with
        | '+' :: t => (1, t)
        | '-' :: t => (-1, t)
        | t => (1, t)
      let ds := sr.2.takeWhile Char.isDigit
      if ds.isEmpty then none
      else if (sr.2.drop ds.length).isEmpty then some (sr.1 * (digitsVal ds : Int))
      else none
    else none
  | [] => none

/-- Parse an unsigned numeric literal `mantissa [exponent]` in full, as a
mantissa and a power of ten. -/
def parseNumeric (cs : List Char) : Option (Nat × Int) :=
  match parseMantissa cs with
  | none => none
  | some (m, frac, rest) =>
    match rest with
    | [] => some (m, -(frac : Int))
    | _ =>
      match parseExpPart rest with
      | some e => some (m, e - (frac : Int))
      | none => none

/-- Python's `float(s)`: `some v` when the string parses, `none` when
`float()` raises `ValueError`. -/
def parsePyFloat (s : String) : Option PyFloat :=
  let cs := (pyStrip s).toList
  let sc : Bool × List Char :=
    match cs with
    | '+' :: t => (false, t)
    | '-' :: t => (true, t)
    | t => (false, t)
  let low := asciiLower (String.mk sc.2)
  if low = "inf" || low = "infinity" then some (.inf sc.1)
  else if low = "nan" then some .nan
  else
    match parseNumeric sc.2 with
    | some me => some (.finite (if sc.1 then -(me.1 : Int) else (me.1 : Int)) me.2)
    | none => none

/-! ## Exceptions

Python exceptions raised by the embedded code.  An `Except.error` value in a
result models an exception propagating to the caller. -/

/-- The exceptions the daemon's cycle can raise: `requests.HTTPError` from
`raise_for_status`, a transport-level exception from `requests.put`, and any
exception from the camera / filesystem during `capture_jpeg`. -/
inductive PyExc where
  | httpError (status : Int) (body : String)
  | transportExc (cause : String)
  | captureExc (msg : String)
deriving DecidableEq, Repr

/-! ## Image acquirer: `capture_jpeg` (src lines 159-177)

The camera hardware and `/tmp` filesystem are external state; their
nondeterministic outcomes (each picamera2 call may raise) are supplied as a
`CamBehavior`.  `CapState` holds the observable state the function mutates:
whether the camera session is started and the contents of the fixed
temporary file.  The function also records the trace of externally visible
operations it performs.  `picam.stop()` on a started camera is modelled as
always succeeding. -/

/-- The fixed temporary path `tmp = Path("/tmp/prusa_snapshot.jpg")`. -/
def tmpPath : String := "/tmp/prusa_snapshot.jpg"

/-- Outcomes of the fallible external calls inside one `capture_jpeg` run:
whether `picam.configure` succeeds, whether `picam.start` succeeds, whether
`picam.capture_file` succeeds (writing `captured` to the file when it does),
and whether `tmp.read_bytes()` succeeds on the written file. -/
structure CamBehavior where
  configureOk : Bool
  startOk : Bool
  captureOk : Bool
  captured : List Nat
  readOk : Bool
deriving DecidableEq, Repr

/-- Observable state across a capture: the camera session flag and the
contents of `/tmp/prusa_snapshot.jpg` (`none` = file absent). -/
structure CapState where
  started : Bool
  tmpFile : Option (List Nat)
deriving DecidableEq, Repr

/-- Externally visible operations performed by `capture_jpeg`. -/
inductive CamEvent where
  | configure (w h quality : Nat)
  | start
  | captureWrite (path : String) (data : List Nat)
  | stop
  | readBytes (path : String)
  | unlink (path : String)
deriving DecidableEq, Repr

/-- `capture_jpeg(picam)`: configure the camera for `w`x`h` at JPEG quality
`q`, start the session, sleep 0.2s, capture to the fixed temporary file,
stop the session, read the bytes back, delete the file, and return the
bytes.  Straight-line code with no `try`/`finally`: an exception at any step
propagates immediately, leaving the state as it was at that step. -/
def capture_jpeg (w h q : Nat) (beh : CamBehavior) (s : CapState) :
    Except PyExc (List Nat) × CapState × List CamEvent :=
  if !beh.configureOk then (.error (.captureExc "configure failed"), s, [])
  else
    let evs := [CamEvent.configure w h q]
    if !beh.startOk then (.error (.captureExc "start failed"), s, evs)
    else
      let s1 : CapState := { s with started := true }
      let evs := evs ++ [CamEvent.start]
      -- time.sleep(0.2): no observable effect
      if !beh.captureOk then (.error (.captureExc "capture failed"), s1, evs)
      else
        let s2 : CapState := { s1 with tmpFile := some beh.captured }
        let evs := evs ++ [CamEvent.captureWrite tmpPath beh.captured]
        let s3 : CapState := { s2 with started := false }
        let evs := evs ++ [CamEvent.stop]
        if !beh.readOk then (.error (.captureExc "read failed"), s3, evs)
        else
          let evs := evs ++ [CamEvent.readBytes tmpPath]
          let s4 : CapState := { s3 with tmpFile := none }
          (.ok beh.captured, s4, evs ++ [CamEvent.unlink tmpPath])

/-! ## Uploader: `upload_snapshot` (src lines 180-190) -/

/-- What the external network did for one `requests.put` call: either an HTTP
response was received, or the request failed at transport level (connection
refused, DNS, timeout, TLS), which `requests.put` raises. -/
inductive PutResult where
  | response (status : Int) (body : String)
  | transportError (cause : String)
deriving DecidableEq, Repr

/-- `resp.raise_for_status()`: raises `requests.HTTPError` exactly when the
status code is in 400-599, otherwise returns normally. -/
def raise_for_status (status : Int) (body : String) : Except PyExc Unit :=
  if 400 ≤ status ∧ status < 600 then .error (.httpError status body) else .ok ()

/-- The request headers built by `upload_snapshot`. -/
def uploadHeaders (token fingerprint : String) : List (String × String) :=
  [("accept", "*/*"), ("content-type", "image/jpeg"),
   ("token", token), ("fingerprint", fingerprint)]

/-- `upload_snapshot(jpeg_bytes, token, fingerprint)`: PUT the bytes; a
transport failure from `requests.put` propagates, then `raise_for_status`
raises on a 400-599 response; on any other response the function logs and
returns `None`.  There is no `try`/`except` inside this function. -/
def upload_snapshot (jpeg_bytes : List Nat) (token fingerprint : String)
    (net : PutResult) : Except PyExc Unit :=
  match net with
  | .transportError c => .error (.transportExc c)
  | .response status body => raise_for_status status body

/-! ## Scheduler: the `main` loop (src lines 250-272)

One iteration of `while running:` runs `capture_jpeg` then
`upload_snapshot` inside `try`, classifies any exception through the
`except requests.HTTPError` / `except Exception` clauses, and assigns the
next backoff.  The external world of one cycle (the running flag observed at
the loop head, the camera behaviour, and the network result) is one
`CycleInput`; a schedule is a list of them. -/

/-- How one cycle ended, mirroring the three control paths of the `try`
statement: no exception, the `except requests.HTTPError` clause, or the
`except Exception` clause. -/
inductive CycleResult where
  | success
  | httpError (status : Int) (body : String)
  | otherError (msg : String)
deriving DecidableEq, Repr

/-- Classify one cycle: a `capture_jpeg` exception is never an `HTTPError`,
so it lands in `except Exception`; an `upload_snapshot` exception lands in
`except requests.HTTPError` when it is one, otherwise in `except
Exception`. -/
def classifyCycle (cap : Except PyExc (List Nat)) (token fingerprint : String)
    (net : PutResult) : CycleResult :=
  match cap with
  | .error (.httpError st b) => .httpError st b
  | .error (.transportExc c) => .otherError c
  | .error (.captureExc m) => .otherError m
  | .ok jpeg =>
    match upload_snapshot jpeg token fingerprint net with
    | .ok () => .success
    | .error (.httpError st b) => .httpError st b
    | .error (.transportExc c) => .otherError c
    | .error (.captureExc m) => .otherError m

/-- The backoff assignment of one loop iteration (src lines 253-264): on
success `backoff = INTERVAL_SEC`; in either `except` clause
`backoff = min(max(INTERVAL_SEC * 3, 15), 120)`.  The previous backoff
`prev` is the variable being overwritten; the right-hand sides never read
it. -/
def backoffUpdate (base prev : Int) (r : CycleResult) : Int :=
  match r with
  | .success => base
  | .httpError _ _ => min (max (base * 3) 15) 120
  | .otherError _ => min (max (base * 3) 15) 120

/-- The backoff value after a sequence of cycle results, starting from
`backoff = INTERVAL_SEC` (src line 250). -/
def backoffReach (base : Int) (trace : List CycleResult) : Int :=
  trace.foldl (fun b r => backoffUpdate base b r) base

/-- External input to one prospective iteration: the value of `running`
observed at the loop head, and what camera and network would do in the
cycle's body. -/
structure CycleInput where
  runningFlag : Bool
  camRes : Except PyExc (List Nat)
  netRes : PutResult

/-- The `while running:` loop.  Each step checks the running flag; when it
is true the body runs (classify the cycle, update the backoff) and the loop
continues; when it is false the loop exits.  Returns the final backoff,
whether the loop exited because of a stop request, and the number of body
iterations executed.  An exhausted schedule means the loop is still running
(it would consume further input). -/
def runLoop (base : Int) (token fingerprint : String) :
    List CycleInput → Int → Int × Bool × Nat
  | [], b => (b, false, 0)
  | i :: rest, b =>
    if i.runningFlag then
      let r := runLoop base token fingerprint rest
        (backoffUpdate base b (classifyCycle i.camRes token fingerprint i.netRes))
      (r.1, r.2.1, r.2.2 + 1)
    else (b, true, 0)

/-! ## Identity provider: `get_or_create_fingerprint` (src lines 146-156)

The filesystem around the fingerprint file is explicit state; reads and
writes are recorded as events.  `uuid.uuid4().hex` is nondeterministic and
is supplied as the `fresh` parameter (its actual values are 32 lowercase hex
digits, so non-empty and free of whitespace). -/

/-- State of the fingerprint storage: the contents of `fingerprint.txt`
(`none` = file absent) and whether its parent directory exists. -/
structure FpStore where
  file : Option String
  dirExists : Bool
deriving DecidableEq, Repr

/-- Filesystem operations `get_or_create_fingerprint` can perform. -/
inductive FsEvent where
  | mkdirParents
  | readFp
  | writeFp (contents : String)
deriving DecidableEq, Repr

/-- `get_or_create_fingerprint()`: ensure the parent directory exists; if the
file exists and its stripped contents are non-empty, return them; otherwise
generate a fresh id, write it to the file, and return it. -/
def get_or_create_fingerprint (fresh : String) (st : FpStore) :
    String × FpStore × List FsEvent :=
  let st1 : FpStore := { st with dirExists := true }
  match st1.file with
  | some contents =>
    let fp := pyStrip contents
    if fp ≠ "" then (fp, st1, [.mkdirParents, .readFp])
    else ((fresh, { st1 with file := some fresh },
           [.mkdirParents, .readFp, .writeFp fresh]))
  | none =>
    (fresh, { st1 with file := some fresh }, [.mkdirParents, .writeFp fresh])

/-- Src line 243: `fingerprint = PRUSA_FINGERPRINT or get_or_create_fingerprint()`.
`explicit` is the resolved `PRUSA_FINGERPRINT` configuration value (the
environment variable is already stripped at module load, src line 26); when
it is non-empty (truthy) the `or` short-circuits and the storage is never
touched. -/
def resolve_fingerprint (explicit fresh : String) (st : FpStore) :
    String × FpStore × List FsEvent :=
  if explicit ≠ "" then (explicit, st, [])
  else get_or_create_fingerprint fresh st

/-! ## Focus configuration: `configure_autofocus` (src lines 193-222) and
program startup (src lines 275-287)

A `PiCam` models one `Picamera2` object: the controls set on it (in order)
and whether its session is started.  `configure_autofocus` raises
`ValueError` (modelled as `Except.error` with the message) for a missing or
unparseable manual lens position and for an unknown mode; it only ever calls
`set_controls`, never `start`. -/

/-- The libcamera autofocus mode enum values used by the source. -/
inductive AfModeEnum where
  | Continuous
  | Auto
  | Manual
deriving DecidableEq, Repr

/-- A control set on a camera via `set_controls`. -/
inductive CamCtl where
  | afMode (m : AfModeEnum)
  | lensPosition (v : PyFloat)
deriving DecidableEq, Repr

/-- A `Picamera2` object: accumulated controls and session flag. -/
structure PiCam where
  controls : List CamCtl
  started : Bool
deriving DecidableEq, Repr

/-- `Picamera2()`: a fresh camera object, no controls set, session not
started. -/
def PiCam.new : PiCam := ⟨[], false⟩

/-- `picam.set_controls({...})`: record the given controls. -/
def set_controls (c : PiCam) (ctls : List CamCtl) : PiCam :=
  { c with controls := c.controls ++ ctls }

/-- `configure_autofocus(picam, cli_af)`.  A truthy `cli_af` (a non-empty
argument list) takes priority: mode is `cli_af[0].lower()` and the position
is `cli_af[1]` when present.  Otherwise mode falls back to `PRUSA_AF_MODE`
(already stripped and lower-cased at module load, src line 33) and position
to `PRUSA_AF_POSITION or None`.  Manual mode requires a truthy position that
`float()` accepts; failures raise `ValueError`. -/
def configure_autofocus (picam : PiCam) (cli_af : Option (List String))
    (envMode envPos : String) : Except String PiCam :=
  let mp : String × Option String :=
    match cli_af with
    | some (a :: rest) => (asciiLower a, rest.head?)
    | _ => (envMode, if envPos = "" then none else some envPos)
  let mode := mp.1
  if mode = "cont" || mode = "continuous" then
    .ok (set_controls picam [.afMode .Continuous])
  else if mode = "auto" || mode = "af" then
    .ok (set_controls picam [.afMode .Auto])
  else if mode = "man" || mode = "manual" then
    match mp.2 with
    | none => .error "Manual mode requires a lens position, e.g. --af man 1.2"
    | some p =>
      if p = "" then
        .error "Manual mode requires a lens position, e.g. --af man 1.2"
      else
        match parsePyFloat p with
        | none => .error ("Invalid manual lens position: " ++ p)
        | some v => .ok (set_controls picam [.afMode .Manual, .lensPosition v])
  else .error ("Unknown autofocus mode: " ++ mode)

/-- The camera object `main()` creates and captures with (src lines
246-247): a fresh `Picamera2()` on which `main` immediately sets
`AfMode = Continuous`.  It is a different object from the one configured in
the `__main__` block. -/
def mainInitCam : PiCam :=
  set_controls PiCam.new [.afMode .Continuous]

/-- The startup path of the `__main__` block without `--setup` (src lines
282-284): create a `Picamera2`, run `configure_autofocus` on it — a raised
`ValueError` is caught at src line 285 and the process exits with status 1
before `main()` is ever entered — and then call `main()`, which builds its
own camera (`mainInitCam`) for capturing.  On success the result carries
the configured startup camera and the capture camera. -/
def program_start (cli_af : Option (List String)) (envMode envPos : String) :
    Except String (PiCam × PiCam) :=
  match configure_autofocus PiCam.new cli_af envMode envPos with
  | .error e => .error e
  | .ok cam0 => .ok (cam0, mainInitCam)

/-! ## Sanity checks of the embedding on concrete values -/

example : parsePyFloat "1.2" = some (.finite 12 (-1)) := by decide
example : parsePyFloat "abc" = none := by decide
example : parsePyFloat " -3e2 " = some (.finite (-3) 2) := by decide
example : parsePyFloat "inf" = some (.inf false) := by decide
example : parsePyFloat "" = none := by decide
example : parsePyFloat "1.2.3" = none := by decide
example : (PyFloat.finite 12 (-1)).toRat = some (6 / 5) := by
  norm_num [PyFloat.toRat]
example : pyStrip "  ab \n" = "ab" := by decide
example : raise_for_status 200 "" = .ok () := rfl
example : raise_for_status 404 "x" = .error (.httpError 404 "x") := rfl

/-! ## Helper lemmas -/

/-- One backoff assignment keeps the scalar within `[base, 120]` whenever
`base ≤ 120`. -/
theorem backoffUpdate_bounds (base prev : Int) (hb : base ≤ 120)
    (r : CycleResult) :
    base ≤ backoffUpdate base prev r ∧ backoffUpdate base prev r ≤ 120 := by
  cases r <;> simp only [backoffUpdate] <;> omega

/-- Folding backoff assignments from any value inside `[base, 120]` stays
inside `[base, 120]` whenever `base ≤ 120`. -/
theorem backoffFold_bounds (base : Int) (hb : base ≤ 120) :
    ∀ (trace : List CycleResult) (b : Int), base ≤ b → b ≤ 120 →
      base ≤ trace.foldl (fun x r => backoffUpdate base x r) b ∧
      trace.foldl (fun x r => backoffUpdate base x r) b ≤ 120 := by
  intro trace
  induction trace with
  | nil => intro b h1 h2; exact ⟨h1, h2⟩
  | cons r rest ih =>
    intro b h1 h2
    have hs := backoffUpdate_bounds base b hb r
    exact ih (backoffUpdate base b r) hs.1 hs.2

/-! ## Claim C1 — session release on every exit path of `capture_jpeg` -/

/-- C1 counterexample: when `picam.capture_file` raises after the session
has been started (configure and start succeeded, capture failed), the
function returns with the exception propagating and the camera session
still started — the session is not stopped on this exit path, so the claim
"the camera session is stopped before the function returns on every exit
path" is false at this input. -/
theorem capture_jpeg_leaves_session_started :
    ((capture_jpeg 1280 720 85 ⟨true, true, false, [], true⟩
        ⟨false, none⟩).1 = Except.error (PyExc.captureExc "capture failed")) ∧
    ((capture_jpeg 1280 720 85 ⟨true, true, false, [], true⟩
        ⟨false, none⟩).2.1.started = true) := by
  exact ⟨rfl, rfl⟩

/-- C1 (amended): the session state of `capture_jpeg` at return is fully
characterized: when configure and start both succeed, the session is stopped
at return exactly when the capture write succeeded (in particular the
session is stopped on the normal path and on a read-back failure, which
occurs after `picam.stop()`); when the capture write fails after the session
started, the function returns with the session still started; when configure
or start fail, the session flag is unchanged. -/
theorem capture_jpeg_session_state (w h q : Nat) (beh : CamBehavior)
    (s : CapState) :
    (capture_jpeg w h q beh s).2.1.started =
      (if beh.configureOk && beh.startOk then !beh.captureOk else s.started) := by
  rcases beh with ⟨c, st, cap, d, r⟩
  cases c <;> cases st <;> cases cap <;> cases r <;>
    simp [capture_jpeg]

/-! ## Claim C2 — `upload_snapshot` never raising -/

/-- C2 counterexample: for a 401 response, `upload_snapshot` raises
`requests.HTTPError` (an `Except.error`, i.e. an exception propagating to
the caller) rather than returning an outcome value — its only normal return
value is `None` — so the claim "every failure path is returned to the
caller represented as an UploadOutcome value rather than propagated as an
exception" is false at this input. -/
theorem upload_snapshot_raises_on_401 :
    (upload_snapshot [] "tok" "fp" (PutResult.response 401 "unauthorized") =
       Except.error (PyExc.httpError 401 "unauthorized")) ∧
    (upload_snapshot [] "tok" "fp"
        (PutResult.response 401 "unauthorized")).isOk = false := by
  exact ⟨rfl, rfl⟩

/-- C2 (amended): `upload_snapshot` signals every failure by raising an
exception, not by returning a value: a transport failure of `requests.put`
propagates as the transport exception, a response with status in 400-599
raises `requests.HTTPError` carrying that status and body, and any other
response returns normally (`None`).  The caller (`main`) absorbs these
exceptions in its `except` clauses. -/
theorem upload_snapshot_exception_behaviour (jpeg : List Nat)
    (token fp : String) :
    (∀ c, upload_snapshot jpeg token fp (PutResult.transportError c) =
        Except.error (PyExc.transportExc c)) ∧
    (∀ st b, upload_snapshot jpeg token fp (PutResult.response st b) =
        if 400 ≤ st ∧ st < 600 then Except.error (PyExc.httpError st b)
        else Except.ok ()) := by
  exact ⟨fun c => rfl, fun st b => rfl⟩

/-! ## Claim C3 — failures never terminate the loop; only stop requests do -/

/-- C3: whether and when the `while running:` loop exits is a function of
the running flags alone, never of the cycle results: the loop exits exactly
when some observed flag is false, and the number of executed iterations is
the number of leading true flags — the same for every choice of capture and
network outcomes, so a capture or upload failure (of any kind) never
terminates the loop, and the loop body, whose `except` clauses are
exhaustive, always continues to the next iteration. -/
theorem loop_exits_only_on_stop (base : Int) (token fp : String) (b : Int)
    (sched : List CycleInput) :
    ((runLoop base token fp sched b).2.1 =
        (sched.map CycleInput.runningFlag).contains false) ∧
    ((runLoop base token fp sched b).2.2 =
        ((sched.map CycleInput.runningFlag).takeWhile (fun x => x)).length) := by
  induction sched generalizing b with
  | nil => exact ⟨rfl, rfl⟩
  | cons i rest ih =>
    rcases i with ⟨flag, cam, net⟩
    cases flag with
    | false => simp [runLoop, List.contains]
    | true =>
      have h := ih (backoffUpdate base b
        (classifyCycle cam token fp net))
      simp [runLoop, List.contains] at h ⊢
      exact ⟨h.1, h.2⟩

/-! ## Claim C4 — escalation is an absolute clamp of `baseInterval * 3` -/

/-- C4: every failed cycle — the `except requests.HTTPError` clause and the
`except Exception` clause alike — assigns the next wait interval to exactly
`min(max(baseInterval * 3, 15), 120)`, recomputed from `baseInterval` alone
(the assignment never reads the previous interval, so consecutive failures
hold the same escalated value); concretely, base 10 yields 30, base 50
yields 120, and base 1 yields 15. -/
theorem backoff_escalation_absolute (base prev prev2 : Int) (st : Int)
    (b m : String) :
    (backoffUpdate base prev (CycleResult.httpError st b) =
        min (max (base * 3) 15) 120) ∧
    (backoffUpdate base prev (CycleResult.otherError m) =
        min (max (base * 3) 15) 120) ∧
    (backoffUpdate base prev (CycleResult.otherError m) =
        backoffUpdate base prev2 (CycleResult.otherError m)) ∧
    (backoffUpdate base
        (backoffUpdate base prev (CycleResult.otherError m))
        (CycleResult.otherError m) =
      backoffUpdate base prev (CycleResult.otherError m)) ∧
    (backoffUpdate 10 prev (CycleResult.otherError m) = 30) ∧
    (backoffUpdate 50 prev (CycleResult.otherError m) = 120) ∧
    (backoffUpdate 1 prev (CycleResult.otherError m) = 15) := by
  refine ⟨rfl, rfl, rfl, rfl, ?_, ?_, ?_⟩ <;> simp only [backoffUpdate] <;> decide

/-! ## Claim C5 — backoff reset on success -/

/-- C5: after a Success outcome, the next computed wait interval is exactly
`baseInterval`, regardless of the previous (possibly escalated) interval. -/
theorem backoff_reset_on_success (base prev : Int) :
    backoffUpdate base prev CycleResult.success = base := rfl

/-! ## Claim C6 — backoff stays within `[baseInterval, maxInterval]` -/

/-- C6 counterexample: the claimed invariant quantifies over every
configured `baseInterval`, but for `baseInterval = 121` (above
`maxInterval = 120`) it fails: after one failed cycle the backoff is
`min(max(363, 15), 120) = 120`, strictly below `baseInterval = 121`, so the
scalar does not stay within `[baseInterval, maxInterval]` — the lower bound
of the claimed interval is violated. -/
theorem backoff_invariant_fails_for_base_121 :
    backoffReach 121 [CycleResult.otherError "boom"] = 120 ∧
    (120 : Int) < 121 := by decide

/-- C6 (amended): provided `baseInterval ≤ maxInterval` (the escalation's
upper clamp, 120), the backoff scalar stays within
`[baseInterval, maxInterval]` for every sequence of cycle outcomes: it
starts at `baseInterval`, every reset on Success returns it there, and
every escalation keeps it in the interval. -/
theorem backoff_within_interval (base : Int) (trace : List CycleResult)
    (hb : base ≤ 120) :
    base ≤ backoffReach base trace ∧ backoffReach base trace ≤ 120 := by
  unfold backoffReach
  exact backoffFold_bounds base hb trace base le_rfl hb

/-- C6 witness: instantiating the invariant at base 10 with a mixed
success/failure trace. -/
theorem backoff_within_interval_witness :
    10 ≤ backoffReach 10
        [CycleResult.success, CycleResult.httpError 503 "s",
         CycleResult.otherError "x"] ∧
    backoffReach 10
        [CycleResult.success, CycleResult.httpError 503 "s",
         CycleResult.otherError "x"] ≤ 120 :=
  backoff_within_interval 10
    [CycleResult.success, CycleResult.httpError 503 "s",
     CycleResult.otherError "x"] (by decide)

/-! ## Claim C7 — manual focus validation and application -/

/-- C7: with `--af man 1.2`, startup succeeds and `configure_autofocus`
applies `AfMode = Manual, LensPosition = 1.2` — but only to the `Picamera2`
object created in the `__main__` block, which is then discarded: `main()`
constructs a second `Picamera2` and sets `AfMode = Continuous` on it, and
that second camera (whose controls are exactly `[AfMode = Continuous]`,
with no lens position) is the one used for every capture.  The validated
manual lens position therefore never reaches the camera session used for
captures, contradicting the claim. -/
theorem manual_focus_lost_before_capture :
    (program_start (some ["man", "1.2"]) "cont" "" =
       Except.ok
         (⟨[CamCtl.afMode AfModeEnum.Manual,
            CamCtl.lensPosition (PyFloat.finite 12 (-1))], false⟩,
          ⟨[CamCtl.afMode AfModeEnum.Continuous], false⟩)) ∧
    mainInitCam.controls = [CamCtl.afMode AfModeEnum.Continuous] := by
  exact ⟨rfl, rfl⟩

/-! ## Claim C8 — explicit identity override bypasses storage -/

/-- C8: when a non-empty explicit identity override is supplied, the
resolution at src line 243 returns that value verbatim, leaves the
fingerprint storage untouched, and performs no filesystem operation at all
(no read, no write). -/
theorem explicit_fingerprint_verbatim_no_io (explicit fresh : String)
    (st : FpStore) (h : explicit ≠ "") :
    resolve_fingerprint explicit fresh st = (explicit, st, []) := by
  simp [resolve_fingerprint, h]

/-- C8 witness: a concrete non-empty override with a populated store. -/
theorem explicit_fingerprint_verbatim_no_io_witness :
    resolve_fingerprint "my-device" "a1b2" ⟨some "stored", true⟩ =
      ("my-device", ⟨some "stored", true⟩, []) :=
  explicit_fingerprint_verbatim_no_io "my-device" "a1b2"
    ⟨some "stored", true⟩ (by decide)

/-! ## Claim C9 — identity stability across two calls -/

/-- C9: running `get_or_create_fingerprint` twice against the same storage
(the second call seeing the state the first call left), with no explicit
override and fresh ids as `uuid4().hex` produces them (non-empty, no
surrounding whitespace), yields the same identity both times; the second
call only creates the directory and reads the file — it neither generates a
new identity nor writes (overwrites) the stored file, whatever the initial
state of the file was. -/
theorem fingerprint_stable_across_calls (st : FpStore)
    (fresh1 fresh2 : String) (h1 : pyStrip fresh1 = fresh1)
    (h2 : fresh1 ≠ "") :
    ((get_or_create_fingerprint fresh2
        (get_or_create_fingerprint fresh1 st).2.1).1 =
      (get_or_create_fingerprint fresh1 st).1) ∧
    ((get_or_create_fingerprint fresh2
        (get_or_create_fingerprint fresh1 st).2.1).2.1 =
      (get_or_create_fingerprint fresh1 st).2.1) ∧
    ((get_or_create_fingerprint fresh2
        (get_or_create_fingerprint fresh1 st).2.1).2.2 =
      [FsEvent.mkdirParents, FsEvent.readFp]) := by
  rcases st with ⟨file, dir⟩
  cases file with
  | none => simp [get_or_create_fingerprint, h1, h2]
  | some c =>
    by_cases hc : pyStrip c = ""
    · simp [get_or_create_fingerprint, hc, h1, h2]
    · simp [get_or_create_fingerprint, hc, h1, h2]

/-- C9 witness: starting from an absent file, with two distinct fresh
ids. -/
theorem fingerprint_stable_across_calls_witness :
    ((get_or_create_fingerprint "c3d4"
        (get_or_create_fingerprint "a1b2" ⟨none, false⟩).2.1).1 =
      (get_or_create_fingerprint "a1b2" ⟨none, false⟩).1) ∧
    ((get_or_create_fingerprint "c3d4"
        (get_or_create_fingerprint "a1b2" ⟨none, false⟩).2.1).2.1 =
      (get_or_create_fingerprint "a1b2" ⟨none, false⟩).2.1) ∧
    ((get_or_create_fingerprint "c3d4"
        (get_or_create_fingerprint "a1b2" ⟨none, false⟩).2.1).2.2 =
      [FsEvent.mkdirParents, FsEvent.readFp]) :=
  fingerprint_stable_across_calls ⟨none, false⟩ "a1b2" "c3d4"
    (by decide) (by decide)

/-! ## Claim C10 — successful capture leaves no image on disk -/

/-- C10: every successful run of `capture_jpeg` writes the snapshot to the
single fixed temporary path `/tmp/prusa_snapshot.jpg`, deletes that file
before returning (the unlink follows the write and the read in the
operation trace, and the final state holds no temporary file), and returns
the captured bytes themselves — after a completed capture the image exists
only as the in-memory byte sequence. -/
theorem capture_jpeg_success_no_file_left (w h q : Nat) (beh : CamBehavior)
    (s : CapState) (d : List Nat)
    (hok : (capture_jpeg w h q beh s).1 = Except.ok d) :
    ((capture_jpeg w h q beh s).2.1.tmpFile = none) ∧
    (d = beh.captured) ∧
    ((capture_jpeg w h q beh s).2.2 =
      [CamEvent.configure w h q, CamEvent.start,
       CamEvent.captureWrite tmpPath beh.captured, CamEvent.stop,
       CamEvent.readBytes tmpPath, CamEvent.unlink tmpPath]) := by
  rcases beh with ⟨c, st, cap, dd, r⟩
  cases c <;> cases st <;> cases cap <;> cases r <;>
    simp_all [capture_jpeg]

/-- C10 witness: a fully successful capture of the bytes `[1, 2, 3]`. -/
theorem capture_jpeg_success_no_file_left_witness :
    ((capture_jpeg 1280 720 85 ⟨true, true, true, [1, 2, 3], true⟩
        ⟨false, none⟩).2.1.tmpFile = none) ∧
    (([1, 2, 3] : List Nat) =
      (⟨true, true, true, [1, 2, 3], true⟩ : CamBehavior).captured) ∧
    ((capture_jpeg 1280 720 85 ⟨true, true, true, [1, 2, 3], true⟩
        ⟨false, none⟩).2.2 =
      [CamEvent.configure 1280 720 85, CamEvent.start,
       CamEvent.captureWrite tmpPath [1, 2, 3], CamEvent.stop,
       CamEvent.readBytes tmpPath, CamEvent.unlink tmpPath]) :=
  capture_jpeg_success_no_file_left 1280 720 85
    ⟨true, true, true, [1, 2, 3], true⟩ ⟨false, none⟩ [1, 2, 3] rfl

end JimboCam
